import Mathlib

/-!
Shallow embedding of the studentInfoSystem web application (`app.py`,
`database.py`, `config.py`) and a verification of its specification.

Python dictionaries are modelled as insertion-ordered association lists,
remote Supabase tables as lists of records inside a `DBState`, and each
remote call is parameterised by an oracle saying whether that call raises.
-/

namespace SIS

/-- Python dict lookup `d.get(k)` for a dict modelled as an insertion-ordered
association list. -/
def dictGet {α : Type} : List (String × α) → String → Option α
  | [], _ => none
  | (k0, v) :: rest, k => if k0 = k then some v else dictGet rest k

/-- Python dict assignment `d[k] = v`: overwrite in place when the key exists,
otherwise append a new entry at the end (insertion order). -/
def dictSet {α : Type} : List (String × α) → String → α → List (String × α)
  | [], k, v => [(k, v)]
  | (k0, v0) :: rest, k, v =>
      if k0 = k then (k0, v) :: rest else (k0, v0) :: dictSet rest k v

/-- Letter grade computed per subject inside `enter_marks` (app.py,
lines 172–183): a chain of `if mark >= t` threshold tests. -/
def gradeOf (mark : Int) : String :=
  if mark ≥ 90 then "A"
  else if mark ≥ 80 then "B"
  else if mark ≥ 70 then "C"
  else if mark ≥ 60 then "D"
  else if mark ≥ 40 then "E"
  else "F"

/-- The fixed threshold table exactly as the specification words it:
A if m ≥ 90, B if 80 ≤ m < 90, C if 70 ≤ m < 80, D if 60 ≤ m < 70,
E if 40 ≤ m < 60, F otherwise. -/
def specGradeTable (m : Int) : String :=
  if m ≥ 90 then "A"
  else if 80 ≤ m ∧ m < 90 then "B"
  else if 70 ≤ m ∧ m < 80 then "C"
  else if 60 ≤ m ∧ m < 70 then "D"
  else if 40 ≤ m ∧ m < 60 then "E"
  else "F"

/-- One iteration of the inner subject loop of `enter_marks` (app.py,
lines 164–186): when the form value parsed as an integer `m`, store
`marks[subject] = m` and `grades[subject] = gradeOf m`; otherwise
(missing field, empty string, or ValueError) leave both dicts unchanged. -/
def marksStep (acc : List (String × Int) × List (String × String))
    (e : String × Option Int) : List (String × Int) × List (String × String) :=
  match e.2 with
  | none => acc
  | some m => (dictSet acc.1 e.1 m, dictSet acc.2 e.1 (gradeOf m))

/-- The per-student body of `enter_marks`: fold the subject loop over the
form entries, starting from empty `marks` and `grades` dicts.  Each entry
pairs a subject with the parse result of its posted form value. -/
def processMarks (entries : List (String × Option Int)) :
    List (String × Int) × List (String × String) :=
  entries.foldl marksStep ([], [])

lemma gradeOf_eq_specGradeTable (m : Int) : gradeOf m = specGradeTable m := by
  unfold gradeOf specGradeTable
  split_ifs <;> first | rfl | (exfalso; omega)

lemma dictSet_map {α β : Type} (f : α → β) :
    ∀ (d : List (String × α)) (k : String) (v : α),
      dictSet (d.map (fun p => (p.1, f p.2))) k (f v) =
        (dictSet d k v).map (fun p => (p.1, f p.2)) := by
  intro d
  induction d with
  | nil => intro k v; rfl
  | cons p rest ih =>
      intro k v
      obtain ⟨k0, v0⟩ := p
      simp only [List.map, dictSet]
      by_cases h : k0 = k
      · simp [h]
      · simp [h, ih]

lemma processMarks_invariant :
    ∀ (entries : List (String × Option Int)) (ms : List (String × Int))
      (gs : List (String × String)),
      gs = ms.map (fun p => (p.1, gradeOf p.2)) →
      (entries.foldl marksStep (ms, gs)).2 =
        (entries.foldl marksStep (ms, gs)).1.map (fun p => (p.1, gradeOf p.2)) := by
  intro entries
  induction entries with
  | nil => intro ms gs h; simpa using h
  | cons e rest ih =>
      intro ms gs h
      cases he : e.2 with
      | none =>
          simp only [List.foldl, marksStep, he]
          exact ih ms gs h
      | some m =>
          simp only [List.foldl, marksStep, he]
          apply ih
          rw [h, dictSet_map]

/-- C1: for every mark parsed as an integer in `enter_marks`, the letter grade
saved for that subject is exactly the one given by the fixed threshold table;
the saved grades dict is pointwise the table applied to the saved marks dict. -/
theorem enter_marks_grade_table (entries : List (String × Option Int)) :
    (processMarks entries).2 =
      (processMarks entries).1.map (fun p => (p.1, specGradeTable p.2)) ∧
    ∀ m : Int, gradeOf m = specGradeTable m := by
  constructor
  · have h := processMarks_invariant entries [] [] rfl
    unfold processMarks
    rw [h]
    have hfn : (fun p : String × Int => (p.1, gradeOf p.2)) =
        fun p : String × Int => (p.1, specGradeTable p.2) := by
      funext p
      rw [gradeOf_eq_specGradeTable]
    rw [hfn]
  · exact gradeOf_eq_specGradeTable

/-- A row of the `users` table. -/
structure User where
  username : String
  password_hash : String
  role : String
  student_id : Option Nat
  created_at : String
deriving Repr, DecidableEq

/-- A row of the `teachers` table. -/
structure Teacher where
  id : Nat
  name : String
  subject : String
  created_at : String
  updated_at : String
deriving Repr, DecidableEq

/-- A row of the `students` table (`class` is a Python keyword-free rename,
`section` is a Lean keyword, hence the trailing underscores). -/
structure Student where
  id : Nat
  name : String
  age : Nat
  class_ : String
  section_ : String
  face_data : Option String
  created_at : String
  updated_at : String
deriving Repr, DecidableEq

/-- A row of the `marks` table. -/
structure MarkRecord where
  student_id : Nat
  subject : String
  mark : Int
  created_at : String
deriving Repr, DecidableEq

/-- A row of the `grades` table. -/
structure GradeRecord where
  student_id : Nat
  subject : String
  grade : String
  created_at : String
deriving Repr, DecidableEq

/-- A row of the `attendance` table. -/
structure AttRecord where
  student_id : Nat
  date : String
  face_data : Option String
  created_at : String
  updated_at : String
deriving Repr, DecidableEq

/-- The remote relational store: one list of rows per table. -/
structure DBState where
  users : List User
  students : List Student
  teachers : List Teacher
  marks : List MarkRecord
  grades : List GradeRecord
  attendance : List AttRecord
deriving Repr, DecidableEq

/-- `DatabaseService.mark_attendance` (database.py, lines 247–273), success
path: select the rows matching `(student_id, date)`; if any exist, update all
matching rows with the new face data and `updated_at`, returning the first
updated row; otherwise insert exactly one new row and return it. -/
def db_mark_attendance (table : List AttRecord) (sid : Nat) (dateStr : String)
    (face : Option String) (now : String) : Option AttRecord × List AttRecord :=
  let existing := table.filter (fun r => r.student_id == sid && r.date == dateStr)
  if existing.isEmpty then
    let newRec : AttRecord :=
      { student_id := sid, date := dateStr, face_data := face,
        created_at := now, updated_at := now }
    (some newRec, table ++ [newRec])
  else
    let newTable := table.map (fun r =>
      if r.student_id == sid && r.date == dateStr then
        { r with face_data := face, updated_at := now }
      else r)
    ((newTable.filter (fun r => r.student_id == sid && r.date == dateStr)).head?,
     newTable)

/-- Number of attendance rows for a given `(student, date)` key. -/
def countKey (table : List AttRecord) (sid : Nat) (d : String) : Nat :=
  (table.filter (fun r => r.student_id == sid && r.date == d)).length

lemma countKey_map_update (table : List AttRecord) (sid : Nat) (dateStr : String)
    (face : Option String) (now : String) (s : Nat) (d : String) :
    countKey (table.map (fun r =>
      if r.student_id == sid && r.date == dateStr then
        { r with face_data := face, updated_at := now }
      else r)) s d = countKey table s d := by
  unfold countKey
  rw [List.filter_map]
  have hfun : ((fun r : AttRecord => r.student_id == s && r.date == d) ∘
      fun r : AttRecord =>
        if r.student_id == sid && r.date == dateStr then
          { r with face_data := face, updated_at := now }
        else r) = fun r : AttRecord => r.student_id == s && r.date == d := by
    funext r
    by_cases hc : (r.student_id == sid && r.date == dateStr) = true
    · simp [Function.comp, hc]
    · simp [Function.comp, hc]
  rw [hfun, List.length_map]

lemma countKey_append (t1 t2 : List AttRecord) (s : Nat) (d : String) :
    countKey (t1 ++ t2) s d = countKey t1 s d + countKey t2 s d := by
  unfold countKey
  rw [List.filter_append, List.length_append]

lemma countKey_singleton (sid : Nat) (dateStr : String) (face : Option String)
    (now : String) (s : Nat) (d : String) :
    countKey ([⟨sid, dateStr, face, now, now⟩] : List AttRecord) s d =
      if s = sid ∧ d = dateStr then 1 else 0 := by
  unfold countKey
  simp only [List.filter_cons, List.filter_nil, Bool.and_eq_true, beq_iff_eq]
  by_cases hk : s = sid ∧ d = dateStr
  · obtain ⟨hs, hd⟩ := hk
    subst hs; subst hd
    simp
  · rw [if_neg hk, if_neg, List.length_nil]
    rintro ⟨h1, h2⟩
    exact hk ⟨h1.symm, h2.symm⟩

/-- C2: `mark_attendance` preserves the at-most-one-record-per-(student, date)
invariant.  After the call, the count for the targeted key is
`max (previous count) 1` (an existing row is updated in place, otherwise one
row is inserted), every other key keeps its exact count, and the table grows
by one row exactly when no row for the key existed. -/
theorem mark_attendance_unique (table : List AttRecord) (sid : Nat)
    (dateStr : String) (face : Option String) (now : String) :
    (∀ (s : Nat) (d : String),
        countKey (db_mark_attendance table sid dateStr face now).2 s d =
          if s = sid ∧ d = dateStr then max (countKey table sid dateStr) 1
          else countKey table s d) ∧
    (db_mark_attendance table sid dateStr face now).2.length =
      table.length + (if countKey table sid dateStr = 0 then 1 else 0) := by
  by_cases hempty :
      (table.filter (fun r => r.student_id == sid && r.date == dateStr)).isEmpty = true
  · have hzero : countKey table sid dateStr = 0 := by
      unfold countKey
      rw [List.isEmpty_iff] at hempty
      rw [hempty]
      rfl
    have hbr : (db_mark_attendance table sid dateStr face now).2 =
        table ++ ([⟨sid, dateStr, face, now, now⟩] : List AttRecord) := by
      unfold db_mark_attendance
      simp only [hempty, if_true]
    rw [hbr]
    constructor
    · intro s d
      rw [countKey_append, countKey_singleton]
      by_cases hk : s = sid ∧ d = dateStr
      · obtain ⟨hs, hd⟩ := hk
        subst hs; subst hd
        rw [if_pos ⟨rfl, rfl⟩, if_pos ⟨rfl, rfl⟩, hzero]
        rfl
      · rw [if_neg hk, if_neg hk, Nat.add_zero]
    · rw [List.length_append, if_pos hzero, List.length_singleton]
  · have hpos : countKey table sid dateStr ≠ 0 := by
      unfold countKey
      intro hc
      rw [List.length_eq_zero] at hc
      rw [List.isEmpty_iff] at hempty
      exact hempty hc
    have hbr : (db_mark_attendance table sid dateStr face now).2 =
        table.map (fun r =>
          if r.student_id == sid && r.date == dateStr then
            { r with face_data := face, updated_at := now }
          else r) := by
      unfold db_mark_attendance
      simp only [hempty, if_false, Bool.false_eq_true]
    rw [hbr]
    constructor
    · intro s d
      rw [countKey_map_update]
      by_cases hk : s = sid ∧ d = dateStr
      · obtain ⟨hs, hd⟩ := hk
        subst hs; subst hd
        rw [if_pos ⟨rfl, rfl⟩]
        exact (Nat.max_eq_left (Nat.one_le_iff_ne_zero.mpr hpos)).symm
      · rw [if_neg hk]
    · rw [List.length_map, if_neg hpos, Nat.add_zero]

/-- A Python exception: either one raised by the remote Supabase call, or the
`NameError` raised when an unbound name such as `check_password_hash` is
evaluated. -/
inductive PyErr where
  | remote (msg : String) : PyErr
  | nameError (msg : String) : PyErr
deriving Repr, DecidableEq

/-- The message of the `NameError` raised on line 48 of database.py, where
`check_password_hash` is referenced but never imported. -/
def checkPasswordHashNameError : PyErr :=
  PyErr.nameError "name check_password_hash is not defined"

/-- Raw body of `DatabaseService.get_user` (database.py, lines 32–39), before
the `except` clause: the remote call either raises (`fail = some e`) or
returns the rows matching the username, of which `data[0]` is taken. -/
def get_user_body (fail : Option PyErr) (st : DBState) (username : String) :
    Except PyErr (Option User) :=
  match fail with
  | some e => Except.error e
  | none => Except.ok (st.users.filter (fun u => u.username == username)).head?

/-- `DatabaseService.get_user`: the `try/except` wrapper prints the exception
and returns `None`. -/
def get_user (fail : Option PyErr) (st : DBState) (username : String) :
    Option User :=
  match get_user_body fail st username with
  | Except.ok v => v
  | Except.error _ => none

/-- Python `str.startswith`: the candidate prefix character sequence is a
prefix of the string's character sequence. -/
def startswith (s pre : String) : Bool :=
  pre.data.isPrefixOf s.data

/-- `DatabaseService.verify_user` (database.py, lines 41–51).  It has no
`try/except` of its own.  `bcryptOk` is the oracle for the external
`bcrypt.checkpw` library call.  When a user is found whose stored hash does
not start with `$2b$`, the `elif` branch evaluates the unbound name
`check_password_hash` and raises a `NameError`. -/
def verify_user (fail : Option PyErr) (bcryptOk : Bool) (st : DBState)
    (username password : String) : Except PyErr (Option User) :=
  match get_user fail st username with
  | none => Except.ok none
  | some user =>
      if startswith user.password_hash "$2b$" then
        if bcryptOk then Except.ok (some user) else Except.ok none
      else
        Except.error checkPasswordHashNameError

/-- Raw body of `DatabaseService.create_student` (database.py, lines 63–80):
insert one student row (the remote store assigns `newId`) and return
`data[0]`. -/
def create_student_body (fail : Option PyErr) (st : DBState) (newId : Nat)
    (name : String) (age : Nat) (class_name section_ : String)
    (face : Option String) (now : String) :
    Except PyErr (Option Student × DBState) :=
  match fail with
  | some e => Except.error e
  | none =>
      let newStudent : Student := ⟨newId, name, age, class_name, section_, face, now, now⟩
      Except.ok (some newStudent, { st with students := st.students ++ [newStudent] })

/-- `DatabaseService.create_student`: the `except` clause prints the exception
and returns `None`, leaving the store untouched. -/
def create_student (fail : Option PyErr) (st : DBState) (newId : Nat)
    (name : String) (age : Nat) (class_name section_ : String)
    (face : Option String) (now : String) : Option Student × DBState :=
  match create_student_body fail st newId name age class_name section_ face now with
  | Except.ok r => r
  | Except.error _ => (none, st)

/-- Raw body of `DatabaseService.delete_student` (database.py, lines 110–117):
delete the rows of the `students` table whose `id` matches, and return
`True`. -/
def delete_student_body (fail : Option PyErr) (st : DBState) (student_id : Nat) :
    Except PyErr (Bool × DBState) :=
  match fail with
  | some e => Except.error e
  | none =>
      Except.ok (true,
        { st with students := st.students.filter (fun s => !(s.id == student_id)) })

/-- `DatabaseService.delete_student`: the `except` clause prints the exception
and returns `False`. -/
def delete_student (fail : Option PyErr) (st : DBState) (student_id : Nat) :
    Bool × DBState :=
  match delete_student_body fail st student_id with
  | Except.ok r => r
  | Except.error _ => (false, st)

/-- C6: `delete_student` issues a delete only against the `students` table —
whether the remote call succeeds or raises, the `users`, `marks`, `grades` and
`attendance` tables are exactly unchanged, so rows referencing the deleted
student survive the call. -/
theorem delete_student_frame (fail : Option PyErr) (st : DBState)
    (student_id : Nat) :
    (delete_student fail st student_id).2.users = st.users ∧
    (delete_student fail st student_id).2.marks = st.marks ∧
    (delete_student fail st student_id).2.grades = st.grades ∧
    (delete_student fail st student_id).2.attendance = st.attendance ∧
    (delete_student fail st student_id).2.teachers = st.teachers := by
  cases fail with
  | none => exact ⟨rfl, rfl, rfl, rfl, rfl⟩
  | some e => exact ⟨rfl, rfl, rfl, rfl, rfl⟩

/-- `DatabaseService.create_user` (database.py, lines 13–30).  `genHash` is
the oracle for the external werkzeug `generate_password_hash` function; the
`student_id` key is added only when the argument is truthy (non-`None` and
non-zero, per `if student_id:`). -/
def create_user (fail : Option PyErr) (genHash : String → String)
    (st : DBState) (username password role : String)
    (student_id : Option Nat) (now : String) : Option User × DBState :=
  match fail with
  | some _ => (none, st)
  | none =>
      let sidField : Option Nat :=
        match student_id with
        | some s => if s == 0 then none else some s
        | none => none
      let newUser : User := ⟨username, genHash password, role, sidField, now⟩
      (some newUser, { st with users := st.users ++ [newUser] })

/-- `DatabaseService.get_all_users` (database.py, lines 53–60): returns all
rows, or `[]` when the remote call raises. -/
def get_all_users (fail : Option PyErr) (st : DBState) : List User :=
  match fail with
  | some _ => []
  | none => st.users

/-- `DatabaseService.get_student` (database.py, lines 82–89): `data[0]` of
the rows matching the id, or `None`. -/
def get_student (fail : Option PyErr) (st : DBState) (student_id : Nat) :
    Option Student :=
  match fail with
  | some _ => none
  | none => (st.students.filter (fun s => s.id == student_id)).head?

/-- `DatabaseService.get_all_students` (database.py, lines 91–98): all rows
ordered by `name`, or `[]`. -/
def get_all_students (fail : Option PyErr) (st : DBState) : List Student :=
  match fail with
  | some _ => []
  | none => st.students.mergeSort (fun a b => a.name ≤ b.name)

/-- The `**kwargs` of `DatabaseService.update_student`: one optional new
value per student column. -/
structure StudentUpdate where
  name : Option String
  age : Option Nat
  class_ : Option String
  section_ : Option String
  face_data : Option (Option String)
deriving Repr

/-- Apply an update dict to a student row; the method itself overwrites
`updated_at` (database.py, line 103). -/
def applyStudentUpdate (kw : StudentUpdate) (now : String) (s : Student) :
    Student :=
  { s with
    name := kw.name.getD s.name,
    age := kw.age.getD s.age,
    class_ := kw.class_.getD s.class_,
    section_ := kw.section_.getD s.section_,
    face_data := kw.face_data.getD s.face_data,
    updated_at := now }

/-- `DatabaseService.update_student` (database.py, lines 100–108): update the
matching rows and return `data[0]`, or `None`. -/
def update_student (fail : Option PyErr) (st : DBState) (student_id : Nat)
    (kw : StudentUpdate) (now : String) : Option Student × DBState :=
  match fail with
  | some _ => (none, st)
  | none =>
      let students := st.students.map (fun s =>
        if s.id == student_id then applyStudentUpdate kw now s else s)
      ((students.filter (fun s => s.id == student_id)).head?,
       { st with students := students })

/-- `DatabaseService.create_teacher` (database.py, lines 120–134). -/
def create_teacher (fail : Option PyErr) (st : DBState) (newId : Nat)
    (name subject now : String) : Option Teacher × DBState :=
  match fail with
  | some _ => (none, st)
  | none =>
      let newTeacher : Teacher := ⟨newId, name, subject, now, now⟩
      (some newTeacher, { st with teachers := st.teachers ++ [newTeacher] })

/-- `DatabaseService.get_teacher` (database.py, lines 136–143). -/
def get_teacher (fail : Option PyErr) (st : DBState) (teacher_id : Nat) :
    Option Teacher :=
  match fail with
  | some _ => none
  | none => (st.teachers.filter (fun t => t.id == teacher_id)).head?

/-- `DatabaseService.get_all_teachers` (database.py, lines 145–152): all rows
ordered by `name`, or `[]`. -/
def get_all_teachers (fail : Option PyErr) (st : DBState) : List Teacher :=
  match fail with
  | some _ => []
  | none => st.teachers.mergeSort (fun a b => a.name ≤ b.name)

/-- The `**kwargs` of `DatabaseService.update_teacher`. -/
structure TeacherUpdate where
  name : Option String
  subject : Option String
deriving Repr

/-- Apply an update dict to a teacher row; the method overwrites
`updated_at` (database.py, line 157). -/
def applyTeacherUpdate (kw : TeacherUpdate) (now : String) (t : Teacher) :
    Teacher :=
  { t with
    name := kw.name.getD t.name,
    subject := kw.subject.getD t.subject,
    updated_at := now }

/-- `DatabaseService.update_teacher` (database.py, lines 154–162). -/
def update_teacher (fail : Option PyErr) (st : DBState) (teacher_id : Nat)
    (kw : TeacherUpdate) (now : String) : Option Teacher × DBState :=
  match fail with
  | some _ => (none, st)
  | none =>
      let teachers := st.teachers.map (fun t =>
        if t.id == teacher_id then applyTeacherUpdate kw now t else t)
      ((teachers.filter (fun t => t.id == teacher_id)).head?,
       { st with teachers := teachers })

/-- `DatabaseService.delete_teacher` (database.py, lines 164–171): `True`,
or `False` when the remote call raises. -/
def delete_teacher (fail : Option PyErr) (st : DBState) (teacher_id : Nat) :
    Bool × DBState :=
  match fail with
  | some _ => (false, st)
  | none =>
      (true, { st with teachers := st.teachers.filter (fun t => !(t.id == teacher_id)) })

/-- `DatabaseService.get_student_marks` (database.py, lines 198–208): build
the `marks[subject] = mark` dict over the student's rows, or `{}`. -/
def get_student_marks (fail : Option PyErr) (st : DBState) (student_id : Nat) :
    List (String × Int) :=
  match fail with
  | some _ => []
  | none =>
      (st.marks.filter (fun r => r.student_id == student_id)).foldl
        (fun d r => dictSet d r.subject r.mark) []

/-- `DatabaseService.get_student_grades` (database.py, lines 234–244): build
the `grades[subject] = grade` dict, or `{}`. -/
def get_student_grades (fail : Option PyErr) (st : DBState) (student_id : Nat) :
    List (String × String) :=
  match fail with
  | some _ => []
  | none =>
      (st.grades.filter (fun r => r.student_id == student_id)).foldl
        (fun d r => dictSet d r.subject r.grade) []

/-- `DatabaseService.mark_attendance` with its `try/except` (database.py,
lines 247–273): a raising remote call (select, update or insert) is caught
before any write took effect, returning `None` with the table unchanged;
otherwise the success path `db_mark_attendance` runs. -/
def mark_attendance (fail : Option PyErr) (table : List AttRecord) (sid : Nat)
    (dateStr : String) (face : Option String) (now : String) :
    Option AttRecord × List AttRecord :=
  match fail with
  | some _ => (none, table)
  | none => db_mark_attendance table sid dateStr face now

/-- `DatabaseService.get_student_attendance` (database.py, lines 275–282):
the dates of the student's rows, ordered by `date` descending, or `[]`. -/
def get_student_attendance (fail : Option PyErr) (st : DBState)
    (student_id : Nat) : List String :=
  match fail with
  | some _ => []
  | none =>
      ((st.attendance.filter (fun r => r.student_id == student_id)).mergeSort
        (fun a b => b.date ≤ a.date)).map (fun r => r.date)

/-- `DatabaseService.get_attendance_by_date` (database.py, lines 284–291). -/
def get_attendance_by_date (fail : Option PyErr) (st : DBState)
    (dateStr : String) : List AttRecord :=
  match fail with
  | some _ => []
  | none => st.attendance.filter (fun r => r.date == dateStr)

/-- `DatabaseService.update_student_face` (database.py, lines 294–304). -/
def update_student_face (fail : Option PyErr) (st : DBState)
    (student_id : Nat) (face : Option String) (now : String) :
    Option Student × DBState :=
  match fail with
  | some _ => (none, st)
  | none =>
      let students := st.students.map (fun s =>
        if s.id == student_id then { s with face_data := face, updated_at := now }
        else s)
      ((students.filter (fun s => s.id == student_id)).head?,
       { st with students := students })

/-- `DatabaseService.delete_student_face` (database.py, lines 306–316): set
`face_data` to `NULL`. -/
def delete_student_face (fail : Option PyErr) (st : DBState)
    (student_id : Nat) (now : String) : Option Student × DBState :=
  match fail with
  | some _ => (none, st)
  | none =>
      let students := st.students.map (fun s =>
        if s.id == student_id then { s with face_data := none, updated_at := now }
        else s)
      ((students.filter (fun s => s.id == student_id)).head?,
       { st with students := students })

/-- `DatabaseService.get_statistics` (database.py, lines 319–344): a dict of
five counts, or `{}` when one of the method's own remote calls raises.  The
nested `get_all_*` helpers carry their own oracles because they catch their
own errors.  `not_.is_('face_data', 'null')` counts rows whose `face_data`
is non-`NULL`, and `count if count else 0` equals the row count. -/
def get_statistics (fail failUsers failStudents failTeachers : Option PyErr)
    (st : DBState) : List (String × Nat) :=
  match fail with
  | some _ => []
  | none =>
      let students_count := (get_all_students failStudents st).length
      let teachers_count := (get_all_teachers failTeachers st).length
      let users_count := (get_all_users failUsers st).length
      let face_data_count := (st.students.filter (fun s => s.face_data.isSome)).length
      let total_attendance := st.attendance.length
      [("total_students", students_count),
       ("total_teachers", teachers_count),
       ("total_users", users_count),
       ("students_with_face_data", face_data_count),
       ("total_attendance_records", total_attendance)]

/-- The populated return dict of `get_class_statistics`. -/
structure ClassStats where
  class_name : String
  section_ : String
  total_students : Nat
  students_with_face_data : Nat
  students_with_marks : Nat
  students_with_grades : Nat
  average_marks : ℚ
  students : List Student
deriving Repr

/-- `DatabaseService.get_class_statistics` (database.py, lines 346–386).
`none` stands for the empty dict `{}`, returned both when a remote call
raises and when the class has no students.  `pyRound2` is the oracle for the
builtin `round(_, 2)`; `s.get('face_data')` truthiness excludes `None` and
the empty string; `len(set(...))` is the number of distinct ids. -/
def get_class_statistics (fail : Option PyErr) (pyRound2 : ℚ → ℚ)
    (st : DBState) (class_name section_ : String) : Option ClassStats :=
  match fail with
  | some _ => none
  | none =>
      let class_students := st.students.filter
        (fun s => s.class_ == class_name && s.section_ == section_)
      if class_students.isEmpty then none
      else
        let student_ids := class_students.map (fun s => s.id)
        let marks_data := st.marks.filter
          (fun m => student_ids.contains m.student_id)
        let grades_data := st.grades.filter
          (fun g => student_ids.contains g.student_id)
        let avg_marks : ℚ :=
          if marks_data.isEmpty then 0
          else (marks_data.map (fun m => (m.mark : ℚ))).sum / (marks_data.length : ℚ)
        some
          { class_name := class_name
            section_ := section_
            total_students := class_students.length
            students_with_face_data := (class_students.filter
              (fun s => match s.face_data with
                | some f => f != ""
                | none => false)).length
            students_with_marks := ((marks_data.map (fun m => m.student_id)).dedup).length
            students_with_grades := ((grades_data.map (fun g => g.student_id)).dedup).length
            average_marks := pyRound2 avg_marks
            students := class_students }

deriving instance DecidableEq for Except

/-- C3, counterexample to the claim as stated: `verify_user` is a
`DatabaseService` method, yet on a store holding a user whose password hash is
in werkzeug (non-bcrypt) format it raises a `NameError` instead of returning,
because database.py never imports `check_password_hash`. -/
theorem database_layer_raises_counterexample :
    verify_user none true
      ⟨[⟨"alice", "pbkdf2:sha256:260000$abc$def", "teacher", none, "T"⟩],
        [], [], [], [], []⟩
      "alice" "pw" = Except.error checkPasswordHashNameError := by
  decide

/-- C8: whenever `get_user` finds a stored user whose `password_hash` does not
start with `$2b$`, `verify_user` raises the `NameError` coming from the
unbound reference to `check_password_hash`, for every password and every
behaviour of the bcrypt oracle. -/
theorem verify_user_name_error (st : DBState) (username password : String)
    (user : User) (bcryptOk : Bool)
    (hfound : (st.users.filter (fun u => u.username == username)).head? = some user)
    (hhash : startswith user.password_hash "$2b$" = false) :
    verify_user none bcryptOk st username password =
      Except.error checkPasswordHashNameError := by
  unfold verify_user get_user get_user_body
  rw [hfound]
  simp only [hhash, Bool.false_eq_true, if_false]

/-- C8, witness: on a concrete store holding a werkzeug-format hash the
hypotheses of `verify_user_name_error` hold and `verify_user` raises. -/
theorem verify_user_name_error_witness :
    (((⟨[⟨"bob", "scrypt:32768:8:1$xyz", "student", some 7, "T"⟩],
        [], [], [], [], []⟩ : DBState).users.filter
          (fun u => u.username == "bob")).head? =
        some ⟨"bob", "scrypt:32768:8:1$xyz", "student", some 7, "T"⟩) ∧
    (startswith "scrypt:32768:8:1$xyz" "$2b$" = false) ∧
    verify_user none false
      ⟨[⟨"bob", "scrypt:32768:8:1$xyz", "student", some 7, "T"⟩],
        [], [], [], [], []⟩ "bob" "secret" =
      Except.error checkPasswordHashNameError :=
  ⟨by decide, by decide,
    verify_user_name_error _ "bob" "secret"
      ⟨"bob", "scrypt:32768:8:1$xyz", "student", some 7, "T"⟩ false (by decide) (by decide)⟩

/-- `DatabaseService.save_marks` (database.py, lines 174–196), with one
exception oracle per remote call: first delete every `marks` row of the
student, then — only when `marks_data` is non-empty — insert one row per
`(subject, mark)` entry.  A raising delete is caught before anything changed;
a raising insert is caught after the delete already ran. -/
def save_marks (failDel failIns : Option PyErr) (st : DBState)
    (student_id : Nat) (marks_data : List (String × Int)) (now : String) :
    List MarkRecord × DBState :=
  match failDel with
  | some _ => ([], st)
  | none =>
      let st1 := { st with
        marks := st.marks.filter (fun r => !(r.student_id == student_id)) }
      let marks_records := marks_data.map
        (fun p => (⟨student_id, p.1, p.2, now⟩ : MarkRecord))
      if marks_records.isEmpty then ([], st1)
      else
        match failIns with
        | some _ => ([], st1)
        | none => (marks_records, { st1 with marks := st1.marks ++ marks_records })

/-- `DatabaseService.save_grades` (database.py, lines 210–232): identical
delete-then-insert shape on the `grades` table. -/
def save_grades (failDel failIns : Option PyErr) (st : DBState)
    (student_id : Nat) (grades_data : List (String × String)) (now : String) :
    List GradeRecord × DBState :=
  match failDel with
  | some _ => ([], st)
  | none =>
      let st1 := { st with
        grades := st.grades.filter (fun r => !(r.student_id == student_id)) }
      let grades_records := grades_data.map
        (fun p => (⟨student_id, p.1, p.2, now⟩ : GradeRecord))
      if grades_records.isEmpty then ([], st1)
      else
        match failIns with
        | some _ => ([], st1)
        | none => (grades_records, { st1 with grades := st1.grades ++ grades_records })

lemma filter_not_filter_self {α : Type} (l : List α) (p : α → Bool) :
    (l.filter (fun a => !(p a))).filter p = [] := by
  rw [List.filter_filter, List.filter_eq_nil_iff]
  intro a _
  simp [Bool.and_comm]

lemma replace_rows {α : Type} (old new : List α) (p : α → Bool)
    (hnew : ∀ a ∈ new, p a = true) :
    (old.filter (fun a => !(p a)) ++ new).filter p = new ∧
    (old.filter (fun a => !(p a)) ++ new).filter (fun a => !(p a)) =
      old.filter (fun a => !(p a)) := by
  constructor
  · rw [List.filter_append, filter_not_filter_self, List.nil_append]
    exact List.filter_eq_self.mpr hnew
  · rw [List.filter_append]
    have h2 : new.filter (fun a => !(p a)) = [] := by
      rw [List.filter_eq_nil_iff]
      intro a ha
      simp [hnew a ha]
    rw [h2, List.append_nil, List.filter_filter]
    apply List.filter_congr
    intro a _
    simp

/-- C9: on the success path, `save_marks` leaves the student's `marks` rows
equal to exactly the submitted `marks_data` (so any subject absent from the
submission is erased) while every other student's rows are untouched, and
`save_grades` does the same on the `grades` table. -/
theorem save_marks_replaces_rows (st : DBState) (sid : Nat)
    (marks_data : List (String × Int)) (grades_data : List (String × String))
    (now : String) :
    (save_marks none none st sid marks_data now).2.marks.filter
        (fun r => r.student_id == sid) =
      marks_data.map (fun p => (⟨sid, p.1, p.2, now⟩ : MarkRecord)) ∧
    (save_marks none none st sid marks_data now).2.marks.filter
        (fun r => !(r.student_id == sid)) =
      st.marks.filter (fun r => !(r.student_id == sid)) ∧
    (save_grades none none st sid grades_data now).2.grades.filter
        (fun r => r.student_id == sid) =
      grades_data.map (fun p => (⟨sid, p.1, p.2, now⟩ : GradeRecord)) ∧
    (save_grades none none st sid grades_data now).2.grades.filter
        (fun r => !(r.student_id == sid)) =
      st.grades.filter (fun r => !(r.student_id == sid)) := by
  have hm := replace_rows st.marks
    (marks_data.map (fun p => (⟨sid, p.1, p.2, now⟩ : MarkRecord)))
    (fun r => r.student_id == sid) ?hma
  case hma =>
    intro r hr
    obtain ⟨q, _, rfl⟩ := List.mem_map.mp hr
    simp
  have hg := replace_rows st.grades
    (grades_data.map (fun p => (⟨sid, p.1, p.2, now⟩ : GradeRecord)))
    (fun r => r.student_id == sid) ?hga
  case hga =>
    intro r hr
    obtain ⟨q, _, rfl⟩ := List.mem_map.mp hr
    simp
  by_cases hme : (marks_data.map (fun p => (⟨sid, p.1, p.2, now⟩ : MarkRecord))).isEmpty
  · have hnil : marks_data = [] := by
      rw [List.isEmpty_iff, List.map_eq_nil_iff] at hme
      exact hme
    subst hnil
    by_cases hge : (grades_data.map (fun p => (⟨sid, p.1, p.2, now⟩ : GradeRecord))).isEmpty
    · have hgnil : grades_data = [] := by
        rw [List.isEmpty_iff, List.map_eq_nil_iff] at hge
        exact hge
      subst hgnil
      refine ⟨?_, ?_, ?_, ?_⟩
      · simp only [save_marks, List.map_nil, List.isEmpty_nil, if_true]
        exact filter_not_filter_self st.marks _
      · simp only [save_marks, List.map_nil, List.isEmpty_nil, if_true]
        rw [List.filter_filter]
        apply List.filter_congr; intro a _; simp
      · simp only [save_grades, List.map_nil, List.isEmpty_nil, if_true]
        exact filter_not_filter_self st.grades _
      · simp only [save_grades, List.map_nil, List.isEmpty_nil, if_true]
        rw [List.filter_filter]
        apply List.filter_congr; intro a _; simp
    · refine ⟨?_, ?_, ?_, ?_⟩
      · simp only [save_marks, List.map_nil, List.isEmpty_nil, if_true]
        exact filter_not_filter_self st.marks _
      · simp only [save_marks, List.map_nil, List.isEmpty_nil, if_true]
        rw [List.filter_filter]
        apply List.filter_congr; intro a _; simp
      · simp only [save_grades, hge, if_false, Bool.false_eq_true]
        exact hg.1
      · simp only [save_grades, hge, if_false, Bool.false_eq_true]
        exact hg.2
  · by_cases hge : (grades_data.map (fun p => (⟨sid, p.1, p.2, now⟩ : GradeRecord))).isEmpty
    · have hgnil : grades_data = [] := by
        rw [List.isEmpty_iff, List.map_eq_nil_iff] at hge
        exact hge
      refine ⟨?_, ?_, ?_, ?_⟩
      · simp only [save_marks, hme, if_false, Bool.false_eq_true]
        exact hm.1
      · simp only [save_marks, hme, if_false, Bool.false_eq_true]
        exact hm.2
      · subst hgnil
        simp only [save_grades, List.map_nil, List.isEmpty_nil, if_true]
        exact filter_not_filter_self st.grades _
      · subst hgnil
        simp only [save_grades, List.map_nil, List.isEmpty_nil, if_true]
        rw [List.filter_filter]
        apply List.filter_congr; intro a _; simp
    · refine ⟨?_, ?_, ?_, ?_⟩
      · simp only [save_marks, hme, if_false, Bool.false_eq_true]
        exact hm.1
      · simp only [save_marks, hme, if_false, Bool.false_eq_true]
        exact hm.2
      · simp only [save_grades, hge, if_false, Bool.false_eq_true]
        exact hg.1
      · simp only [save_grades, hge, if_false, Bool.false_eq_true]
        exact hg.2

/-- The average-marks computation of `student_report` (app.py, lines
416–420): `sum(marks.values()) / len(marks)` when the marks dict is
non-empty, `0` otherwise. -/
def average_marks (marks : List (String × Int)) : ℚ :=
  if marks.isEmpty then 0
  else (marks.map (fun p => (p.2 : ℚ))).sum / (marks.length : ℚ)

/-- One iteration of the grade-distribution loop of `student_report` (app.py,
lines 423–426): `grade_distribution[grade] = grade_distribution.get(grade, 0) + 1`. -/
def distStep (d : List (String × Nat)) (g : String) : List (String × Nat) :=
  dictSet d g ((dictGet d g).getD 0 + 1)

/-- The grade-distribution dict of `student_report`, built by folding the
loop over the grade values. -/
def grade_distribution (gradeValues : List String) : List (String × Nat) :=
  gradeValues.foldl distStep []

lemma dictGet_dictSet {α : Type} :
    ∀ (d : List (String × α)) (k : String) (v : α) (k' : String),
      dictGet (dictSet d k v) k' = if k = k' then some v else dictGet d k' := by
  intro d
  induction d with
  | nil =>
      intro k v k'
      simp only [dictSet, dictGet]
  | cons p rest ih =>
      intro k v k'
      obtain ⟨k0, v0⟩ := p
      by_cases h : k0 = k
      · subst h
        simp only [dictSet, if_pos rfl, dictGet]
        by_cases h2 : k0 = k' <;> simp [h2]
      · simp only [dictSet, if_neg h, dictGet, ih]
        by_cases h2 : k0 = k'
        · subst h2
          rw [if_pos rfl, if_neg (fun hc => h hc.symm), if_pos rfl]
        · rw [if_neg h2, if_neg h2]

lemma dictGet_distStep_pos (d : List (String × Nat)) (g : String)
    (hpos : ∀ k' n, dictGet d k' = some n → 0 < n) :
    ∀ k' n, dictGet (distStep d g) k' = some n → 0 < n := by
  intro k' n h
  rw [distStep, dictGet_dictSet] at h
  by_cases hg : g = k'
  · rw [if_pos hg] at h
    injection h with h1
    omega
  · rw [if_neg hg] at h
    exact hpos k' n h

lemma grade_distribution_aux :
    ∀ (gs : List String) (d : List (String × Nat)) (k : String),
      (∀ k' n, dictGet d k' = some n → 0 < n) →
      dictGet (gs.foldl distStep d) k =
        (if (dictGet d k).getD 0 + gs.count k = 0 then none
         else some ((dictGet d k).getD 0 + gs.count k)) := by
  intro gs
  induction gs with
  | nil =>
      intro d k hpos
      simp only [List.foldl_nil, List.count_nil, Nat.add_zero]
      cases hd : dictGet d k with
      | none => simp
      | some n =>
          have hn := hpos k n hd
          simp only [Option.getD_some]
          rw [if_neg (by omega)]
  | cons g gs ih =>
      intro d k hpos
      simp only [List.foldl_cons]
      rw [ih (distStep d g) k (dictGet_distStep_pos d g hpos)]
      have hX : (dictGet (distStep d g) k).getD 0 + gs.count k =
          (dictGet d k).getD 0 + (g :: gs).count k := by
        rw [distStep, dictGet_dictSet, List.count_cons]
        by_cases hg : g = k
        · rw [if_pos hg]
          subst hg
          simp only [Option.getD_some]
          split_ifs with hc
          · omega
          · exact absurd (beq_self_eq_true _) hc
        · rw [if_neg hg]
          have hb : (g == k) = false := by
            simp only [beq_eq_false_iff_ne, ne_eq]
            exact hg
          rw [hb]
          simp only [Bool.false_eq_true, if_false]
          omega
      rw [hX]

lemma count_map_snd (grades : List (String × String)) (g : String) :
    (grades.map (fun p => p.2)).count g =
      (grades.filter (fun p => p.2 == g)).length := by
  induction grades with
  | nil => rfl
  | cons p l ih =>
      simp only [List.map_cons, List.count_cons, List.filter_cons]
      by_cases h : p.2 = g
      · subst h
        split_ifs with hc
        · rw [List.length_cons, ih]
        · exact absurd (beq_self_eq_true p.2) hc
      · have h2 : (p.2 == g) = false := by
          simp only [beq_eq_false_iff_ne, ne_eq]
          exact h
        rw [h2]
        simp only [Bool.false_eq_true, if_false]
        rw [ih]
        omega

/-- C4: in `student_report`, `average_marks` is the sum of the mark values
divided by their number for a non-empty marks dict and `0` for an empty one,
and `grade_distribution` maps each letter present among the stored grades to
exactly the number of subjects carrying that letter, omitting letters of
count zero. -/
theorem student_report_stats (marks : List (String × Int))
    (grades : List (String × String)) (g : String) :
    average_marks marks =
      (if marks.isEmpty then 0
       else (marks.map (fun p => (p.2 : ℚ))).sum / (marks.length : ℚ)) ∧
    dictGet (grade_distribution (grades.map (fun p => p.2))) g =
      (if (grades.filter (fun p => p.2 == g)).length = 0 then none
       else some ((grades.filter (fun p => p.2 == g)).length)) := by
  constructor
  · rfl
  · rw [grade_distribution, grade_distribution_aux _ [] g
      (by intro k' n h; simp [dictGet] at h)]
    simp only [dictGet, Option.getD_none, Nat.zero_add]
    rw [count_map_snd]

/-- The POST branch of the `/attendance/mark` route (app.py, lines 288–309):
read `face_data` from the form; when it is truthy (non-`None`, non-empty)
and longer than 100 characters, pass it unchanged to
`db.mark_attendance(student_id, today, face_data)`; otherwise store
nothing. -/
def route_mark_attendance (form_face : Option String) (table : List AttRecord)
    (sid : Nat) (today now : String) : Option AttRecord × List AttRecord :=
  match form_face with
  | some fd =>
      if fd ≠ "" ∧ 100 < fd.length then
        db_mark_attendance table sid today (some fd) now
      else (none, table)
  | none => (none, table)

/-- C5: when the posted `face_data` string is longer than 100 characters,
every attendance row for `(student, today)` after the route runs stores that
string byte-for-byte (`face_data = some fd`, with no transformation applied),
and at least one such row exists. -/
theorem mark_attendance_face_verbatim (table : List AttRecord) (sid : Nat)
    (today now fd : String) (hlen : 100 < fd.length) :
    ((route_mark_attendance (some fd) table sid today now).2.filter
        (fun r => r.student_id == sid && r.date == today)).all
      (fun r => r.face_data == some fd) = true ∧
    ((route_mark_attendance (some fd) table sid today now).2.filter
        (fun r => r.student_id == sid && r.date == today)).isEmpty = false := by
  have hne : fd ≠ "" := by
    intro hc
    subst hc
    simp [String.length] at hlen
  have hroute : route_mark_attendance (some fd) table sid today now =
      db_mark_attendance table sid today (some fd) now := by
    simp only [route_mark_attendance]
    rw [if_pos ⟨hne, hlen⟩]
  rw [hroute]
  by_cases hempty :
      (table.filter (fun r => r.student_id == sid && r.date == today)).isEmpty = true
  · have hbr : (db_mark_attendance table sid today (some fd) now).2 =
        table ++ ([⟨sid, today, some fd, now, now⟩] : List AttRecord) := by
      unfold db_mark_attendance
      simp only [hempty, if_true]
    rw [hbr, List.filter_append]
    have htab : table.filter (fun r => r.student_id == sid && r.date == today) = [] :=
      List.isEmpty_iff.mp hempty
    rw [htab, List.nil_append]
    constructor
    · simp [List.all_cons]
    · simp [List.filter]
  · have hbr : (db_mark_attendance table sid today (some fd) now).2 =
        table.map (fun r =>
          if r.student_id == sid && r.date == today then
            { r with face_data := some fd, updated_at := now }
          else r) := by
      unfold db_mark_attendance
      simp only [hempty, if_false, Bool.false_eq_true]
    rw [hbr, List.filter_map]
    have hfun : ((fun r : AttRecord => r.student_id == sid && r.date == today) ∘
        fun r : AttRecord =>
          if r.student_id == sid && r.date == today then
            { r with face_data := some fd, updated_at := now }
          else r) = fun r : AttRecord => r.student_id == sid && r.date == today := by
      funext r
      by_cases hc : (r.student_id == sid && r.date == today) = true
      · simp [Function.comp, hc]
      · simp [Function.comp, hc]
    rw [hfun]
    constructor
    · rw [List.all_eq_true]
      intro r hr
      obtain ⟨r0, hr0, rfl⟩ := List.mem_map.mp hr
      have hp : (r0.student_id == sid && r0.date == today) = true :=
        (List.mem_filter.mp hr0).2
      simp [hp]
    · rw [List.isEmpty_eq_false_iff_exists_mem]
      have hnil : table.filter (fun r => r.student_id == sid && r.date == today) ≠ [] := by
        intro hc
        rw [List.isEmpty_iff] at hempty
        exact hempty hc
      obtain ⟨r0, hr0⟩ := List.exists_mem_of_ne_nil _ hnil
      exact ⟨_, List.mem_map_of_mem _ hr0⟩

/-- C5, witness: a concrete 101-character string posted to the route on an
empty attendance table is stored verbatim. -/
theorem mark_attendance_face_verbatim_witness :
    100 < (String.mk (List.replicate 101 'x')).length ∧
    ((route_mark_attendance (some (String.mk (List.replicate 101 'x'))) [] 5
        "2026-03-02" "T").2.filter
      (fun r => r.student_id == 5 && r.date == "2026-03-02")).all
      (fun r => r.face_data == some (String.mk (List.replicate 101 'x'))) = true ∧
    ((route_mark_attendance (some (String.mk (List.replicate 101 'x'))) [] 5
        "2026-03-02" "T").2.filter
      (fun r => r.student_id == 5 && r.date == "2026-03-02")).isEmpty = false :=
  ⟨by decide,
    (mark_attendance_face_verbatim [] 5 "2026-03-02" "T"
      (String.mk (List.replicate 101 'x')) (by decide)).1,
    (mark_attendance_face_verbatim [] 5 "2026-03-02" "T"
      (String.mk (List.replicate 101 'x')) (by decide)).2⟩

/-- The `performance_level` assignment of `generate_ai_insights` (app.py,
lines 661–676): a chain of threshold comparisons on `avg_marks`. -/
def performance_level (avg_marks : ℚ) : String :=
  if avg_marks ≥ 90 then "Excellent"
  else if avg_marks ≥ 80 then "Good"
  else if avg_marks ≥ 70 then "Average"
  else if avg_marks ≥ 60 then "Below Average"
  else "Needs Improvement"

/-- The performance table exactly as the specification words it, with
two-sided ranges. -/
def specPerformanceLevel (avg : ℚ) : String :=
  if avg ≥ 90 then "Excellent"
  else if 80 ≤ avg ∧ avg < 90 then "Good"
  else if 70 ≤ avg ∧ avg < 80 then "Average"
  else if 60 ≤ avg ∧ avg < 70 then "Below Average"
  else "Needs Improvement"

/-- C7: the `performance_level` of `generate_ai_insights` is a function of
`avg_marks` alone, agrees with the two-sided threshold table of the claim,
and always equals one of the five fixed strings. -/
theorem ai_insights_performance_level (avg : ℚ) :
    performance_level avg = specPerformanceLevel avg ∧
    (performance_level avg = "Excellent" ∨ performance_level avg = "Good" ∨
     performance_level avg = "Average" ∨ performance_level avg = "Below Average" ∨
     performance_level avg = "Needs Improvement") := by
  constructor
  · unfold performance_level specPerformanceLevel
    by_cases h90 : avg ≥ 90
    · rw [if_pos h90, if_pos h90]
    · rw [if_neg h90, if_neg h90]
      by_cases h80 : avg ≥ 80
      · rw [if_pos h80,
          if_pos (show 80 ≤ avg ∧ avg < 90 from ⟨h80, not_le.mp h90⟩)]
      · rw [if_neg h80,
          if_neg (show ¬(80 ≤ avg ∧ avg < 90) from fun hc => h80 hc.1)]
        by_cases h70 : avg ≥ 70
        · rw [if_pos h70,
            if_pos (show 70 ≤ avg ∧ avg < 80 from ⟨h70, not_le.mp h80⟩)]
        · rw [if_neg h70,
            if_neg (show ¬(70 ≤ avg ∧ avg < 80) from fun hc => h70 hc.1)]
          by_cases h60 : avg ≥ 60
          · rw [if_pos h60,
              if_pos (show 60 ≤ avg ∧ avg < 70 from ⟨h60, not_le.mp h70⟩)]
          · rw [if_neg h60,
              if_neg (show ¬(60 ≤ avg ∧ avg < 70) from fun hc => h60 hc.1)]
  · unfold performance_level
    split_ifs <;> simp

/-- The attendance percentage of `student_report` (app.py, lines 412–414):
`total_days = 30` and `(len(attendance) / total_days) * 100` guarded by
`if total_days > 0`. -/
def student_report_attendance_percentage (attendance : List String) : ℚ :=
  let total_days : ℚ := 30
  if total_days > 0 then ((attendance.length : ℚ) / total_days) * 100 else 0

/-- The attendance percentage of `attendance_report` (app.py, lines
475–477): `(attendance_days / 30) * 100`. -/
def attendance_report_percentage (attendance_days : Nat) : ℚ :=
  ((attendance_days : ℚ) / 30) * 100

/-- C10: both reports compute the attendance percentage as
`(records / 30) * 100` regardless of the reporting period, with no clamping,
so with more than 30 attendance records the reported percentage exceeds
100. -/
theorem attendance_percentage_overflows (attendance : List String) (n : Nat)
    (h1 : 30 < attendance.length) (h2 : 30 < n) :
    student_report_attendance_percentage attendance =
      ((attendance.length : ℚ) / 30) * 100 ∧
    attendance_report_percentage n = ((n : ℚ) / 30) * 100 ∧
    100 < student_report_attendance_percentage attendance ∧
    100 < attendance_report_percentage n := by
  have key : ∀ m : Nat, 30 < m → (100 : ℚ) < ((m : ℚ) / 30) * 100 := by
    intro m hm
    have hm' : (30 : ℚ) < (m : ℚ) := by exact_mod_cast hm
    rw [div_mul_eq_mul_div, lt_div_iff₀ (by norm_num : (0 : ℚ) < 30)]
    linarith
  refine ⟨?_, rfl, ?_, key n h2⟩
  · simp only [student_report_attendance_percentage]
    rw [if_pos (by norm_num : (30 : ℚ) > 0)]
  · simp only [student_report_attendance_percentage]
    rw [if_pos (by norm_num : (30 : ℚ) > 0)]
    exact key attendance.length h1

/-- C10, witness: with 31 attendance records both percentages exceed 100. -/
theorem attendance_percentage_overflows_witness :
    30 < (List.replicate 31 "2026-03-02").length ∧ 30 < 31 ∧
    100 < student_report_attendance_percentage (List.replicate 31 "2026-03-02") ∧
    100 < attendance_report_percentage 31 :=
  ⟨by decide, by decide,
    (attendance_percentage_overflows (List.replicate 31 "2026-03-02") 31
      (by decide) (by decide)).2.2.1,
    (attendance_percentage_overflows (List.replicate 31 "2026-03-02") 31
      (by decide) (by decide)).2.2.2⟩

/-- C3 (amended): every `DatabaseService` operation, when its underlying
remote-table call raises, catches the exception and returns that operation's
failure value — `None`, `False`, the empty list, or the empty dict — instead
of propagating it; `verify_user`'s remote call is caught inside the nested
`get_user`, so it returns `None` there.  For `save_marks`/`save_grades`,
whose bodies issue two remote calls, the `[]` failure value is returned
whichever of the two raises.  (The claim's final conjunct, that no
database-layer method ever raises, is refuted separately: `verify_user`
raises a `NameError` on non-bcrypt hashes.) -/
theorem database_layer_catches_remote_errors (e : PyErr) (st : DBState)
    (genHash : String → String) (username password role : String)
    (student_id_opt : Option Nat)
    (newId : Nat) (name : String) (age : Nat) (class_name section_ : String)
    (face : Option String) (now : String) (sid tid : Nat)
    (kwS : StudentUpdate) (kwT : TeacherUpdate) (subject : String)
    (marks_data : List (String × Int)) (grades_data : List (String × String))
    (dateStr : String) (bcryptOk : Bool) (failIns : Option PyErr)
    (failUsers failStudents failTeachers : Option PyErr)
    (table : List AttRecord) (pyRound2 : ℚ → ℚ) :
    create_user (some e) genHash st username password role student_id_opt now =
      (none, st) ∧
    get_user (some e) st username = none ∧
    verify_user (some e) bcryptOk st username password = Except.ok none ∧
    get_all_users (some e) st = [] ∧
    create_student (some e) st newId name age class_name section_ face now =
      (none, st) ∧
    get_student (some e) st sid = none ∧
    get_all_students (some e) st = [] ∧
    update_student (some e) st sid kwS now = (none, st) ∧
    delete_student (some e) st sid = (false, st) ∧
    create_teacher (some e) st newId name subject now = (none, st) ∧
    get_teacher (some e) st tid = none ∧
    get_all_teachers (some e) st = [] ∧
    update_teacher (some e) st tid kwT now = (none, st) ∧
    delete_teacher (some e) st tid = (false, st) ∧
    save_marks (some e) failIns st sid marks_data now = ([], st) ∧
    (save_marks none (some e) st sid marks_data now).1 = [] ∧
    get_student_marks (some e) st sid = [] ∧
    save_grades (some e) failIns st sid grades_data now = ([], st) ∧
    (save_grades none (some e) st sid grades_data now).1 = [] ∧
    get_student_grades (some e) st sid = [] ∧
    mark_attendance (some e) table sid dateStr face now = (none, table) ∧
    get_student_attendance (some e) st sid = [] ∧
    get_attendance_by_date (some e) st dateStr = [] ∧
    update_student_face (some e) st sid face now = (none, st) ∧
    delete_student_face (some e) st sid now = (none, st) ∧
    get_statistics (some e) failUsers failStudents failTeachers st = [] ∧
    get_class_statistics (some e) pyRound2 st class_name section_ = none := by
  refine ⟨rfl, rfl, rfl, rfl, rfl, rfl, rfl, rfl, rfl, rfl, rfl, rfl, rfl, rfl,
    rfl, ?_, rfl, rfl, ?_, rfl, rfl, rfl, rfl, rfl, rfl, rfl, rfl⟩
  · cases marks_data with
    | nil => rfl
    | cons p rest => rfl
  · cases grades_data with
    | nil => rfl
    | cons p rest => rfl

end SIS
